import Mathlib

/-!
Verification of the flipjs FLIP animation helper.

The development shallowly embeds the relevant parts of `src/core.js`, the
rAF (manual frame-loop) player, the GSAP (external tween engine) player and
the group coordinator as pure Lean functions over explicit state records.
Numbers are modelled as rationals; DOM style values are modelled as typed
optional fields (`none` = null / cleared); exceptions are modelled by
returning the unchanged state together with an error message, or by an
`Except`/outcome type.
-/

/-- A bounding client rect as captured by `getBoundingClientRect()`. -/
structure Layout where
  left : ℚ
  top : ℚ
  width : ℚ
  height : ℚ
deriving DecidableEq, Repr

/-- A snapshot as held in `this.first_` / `this.last_`: a layout (null when
not yet captured) and an opacity. -/
structure Snapshot where
  layout : Option Layout
  opacity : ℚ
deriving DecidableEq, Repr

/-- The `this.invert_` record `{x, y, sx, sy, a}`. -/
structure InvertDelta where
  x : ℚ
  y : ℚ
  sx : ℚ
  sy : ℚ
  a : ℚ
deriving DecidableEq, Repr

/-- The inline style properties the library writes on the element.
`none` models a null / cleared property. The transform is recorded by its
`translate(x, y) scale(sx, sy)` parameters, the will-change value by the
list of property names that is joined with a comma in the source. -/
structure ElementStyle where
  transformOrigin : Option String
  transform : Option (ℚ × ℚ × ℚ × ℚ)
  opacity : Option ℚ
  willChange : Option (List String)
deriving DecidableEq, Repr

/-- The element the helper operates on: its inline style, its class list and
the list of events dispatched on it (in dispatch order). -/
structure Element where
  style : ElementStyle
  classList : List String
  firedEvents : List String
deriving DecidableEq, Repr

/-- A player registered via `FLIP.extend`. `hasPlayFn` records whether the
player object carries a `play_` function (all shipped players do). -/
structure Player where
  id : Nat
  hasPlayFn : Bool
deriving DecidableEq, Repr

/-- The state of one FLIP helper instance, as set up by the constructor. -/
structure FlipState where
  element_ : Element
  first_ : Snapshot
  last_ : Snapshot
  /-- In the source `this.invert_` is an object; it is `null`-checked in
  `play()`, so it is embedded as an `Option` (`none` = null). -/
  invert_ : Option InvertDelta
  start_ : ℚ
  duration_ : ℚ
  delay_ : ℚ
  easing_ : ℚ → ℚ
  updateTransform_ : Bool
  updateOpacity_ : Bool
  /-- Whether a bound `play_` function exists on the instance. -/
  hasPlay_ : Bool

/-- The method `invert()` from `src/core.js`. Throwing is modelled by returning the
unchanged state paired with `some errorMessage`; the two null checks occur
before any mutation, exactly as in the source. -/
def FLIP.invert (s : FlipState) : FlipState × Option String :=
  match s.first_.layout with
  | none => (s, some "You must call first() before invert()")
  | some fl =>
    match s.last_.layout with
    | none => (s, some "You must call last() before invert()")
    | some ll =>
      let inv : InvertDelta :=
        { x := fl.left - ll.left
          y := fl.top - ll.top
          sx := fl.width / ll.width
          sy := fl.height / ll.height
          a := s.last_.opacity - s.first_.opacity }
      let willChange : List String :=
        (if s.updateTransform_ then ["transform"] else []) ++
        (if s.updateOpacity_ then ["opacity"] else [])
      let st0 := s.element_.style
      let st1 :=
        if s.updateTransform_ then
          { st0 with transformOrigin := some "0 0"
                     transform := some (inv.x, inv.y, inv.sx, inv.sy) }
        else st0
      let st2 :=
        if s.updateOpacity_ then { st1 with opacity := some s.first_.opacity }
        else st1
      let st3 := { st2 with willChange := some willChange }
      ({ s with invert_ := some inv
                element_ := { s.element_ with style := st3 } }, none)

/-- C1: with both snapshots set, invert() deterministically overwrites the
InvertDelta with translate = first − last, scale = first / last and
opacityDelta = last.opacity − first.opacity, and throws nothing. -/
theorem invert_computes_delta (s : FlipState) (fl ll : Layout)
    (h1 : s.first_.layout = some fl) (h2 : s.last_.layout = some ll) :
    (FLIP.invert s).2 = none ∧
    (FLIP.invert s).1.invert_ = some
      { x := fl.left - ll.left
        y := fl.top - ll.top
        sx := fl.width / ll.width
        sy := fl.height / ll.height
        a := s.last_.opacity - s.first_.opacity } := by
  unfold FLIP.invert
  rw [h1, h2]
  exact ⟨rfl, rfl⟩

/-- A cleared inline style (all four tracked properties null). -/
def clearedStyle : ElementStyle :=
  { transformOrigin := none, transform := none, opacity := none, willChange := none }

/-- A demo element, used to instantiate the theorems on concrete inputs. -/
def demoElement : Element :=
  { style := clearedStyle, classList := [], firedEvents := [] }

/-- A concrete FLIP state with both snapshots captured and a stale prior
InvertDelta, exercising the overwrite in `invert()`. -/
def c1State : FlipState :=
  { element_ := demoElement
    first_ := { layout := some { left := 1, top := 2, width := 4, height := 6 }, opacity := 1/2 }
    last_ := { layout := some { left := 3, top := 5, width := 2, height := 3 }, opacity := 1 }
    invert_ := some { x := 9, y := 9, sx := 9, sy := 9, a := 9 }
    start_ := 0
    duration_ := 330
    delay_ := 0
    easing_ := fun t => t
    updateTransform_ := true
    updateOpacity_ := true
    hasPlay_ := true }

/-- Witness for C1 at a concrete state. -/
theorem invert_computes_delta_witness :
    (FLIP.invert c1State).2 = none ∧
    (FLIP.invert c1State).1.invert_ = some
      { x := (1 : ℚ) - 3, y := (2 : ℚ) - 5, sx := (4 : ℚ) / 2, sy := (6 : ℚ) / 3,
        a := (1 : ℚ) - 1/2 } :=
  invert_computes_delta c1State
    { left := 1, top := 2, width := 4, height := 6 }
    { left := 3, top := 5, width := 2, height := 3 } rfl rfl

/-- C3: if either snapshot layout is missing, invert() throws a sequencing
error and leaves the whole state (InvertDelta and element styles included)
unchanged. -/
theorem invert_missing_snapshot (s : FlipState)
    (h : s.first_.layout = none ∨ s.last_.layout = none) :
    (FLIP.invert s).1 = s ∧ (FLIP.invert s).2.isSome = true := by
  unfold FLIP.invert
  rcases h with h | h
  · rw [h]
    exact ⟨rfl, rfl⟩
  · cases hf : s.first_.layout with
    | none => exact ⟨rfl, rfl⟩
    | some fl =>
      rw [h]
      exact ⟨rfl, rfl⟩

/-- A freshly constructed-looking state: no snapshot captured yet. -/
def c3State : FlipState :=
  { c1State with
    first_ := { layout := none, opacity := 0 }
    last_ := { layout := none, opacity := 0 }
    invert_ := some { x := 0, y := 0, sx := 1, sy := 1, a := 0 } }

/-- Witness for C3 at a concrete state with no snapshots. -/
theorem invert_missing_snapshot_witness :
    (FLIP.invert c3State).1 = c3State ∧ (FLIP.invert c3State).2.isSome = true :=
  invert_missing_snapshot c3State (Or.inl rfl)

/-- The easing configuration value: a function, an object exposing a
ratio-producing (`getRatio`) function, or an object without one. -/
inductive EasingVal
  | fn (f : ℚ → ℚ)
  | objWithRatioFn (f : ℚ → ℚ)
  | objWithoutRatioFn

/-- The easing resolution of the constructor: a function is used as is, an
object with a ratio-producing function contributes that function, anything
else is rejected. -/
def resolveEasing : EasingVal → Option (ℚ → ℚ)
  | .fn f => some f
  | .objWithRatioFn f => some f
  | .objWithoutRatioFn => none

/-- The options object passed to the constructor; absent keys are `none`. -/
structure FlipOptions where
  element : Option Element := none
  duration : Option ℚ := none
  delay : Option ℚ := none
  easing : Option EasingVal := none
  transform : Option Bool := none
  opacity : Option Bool := none
  play : Option String := none

/-- The config after `Object.assign({}, defaults, options)`. -/
structure FlipConfig where
  element : Option Element
  duration : ℚ
  delay : ℚ
  easing : EasingVal
  transform : Bool
  opacity : Bool
  play : String

/-- Merging the constructor defaults with the supplied options. -/
def applyDefaults (options : FlipOptions) : FlipConfig :=
  { element := options.element
    duration := options.duration.getD 330
    delay := options.delay.getD 0
    easing := options.easing.getD (.fn (fun t => t))
    transform := options.transform.getD true
    opacity := options.opacity.getD true
    play := options.play.getD "rAF" }

/-- The FLIP constructor. The player registry (`FLIP.players_`) is passed
explicitly. Throwing is modelled by `Except.error`. -/
def FLIP.constructor (registry : String → Option Player) (options : FlipOptions) :
    Except String FlipState :=
  let config := applyDefaults options
  match config.element with
  | none => .error "Element must be provided."
  | some el =>
    match resolveEasing config.easing with
    | none => .error "Easing function must be provided."
    | some easingFn =>
      match registry config.play with
      | none => .error ("Unknown player type: " ++ config.play)
      | some player =>
        .ok { element_ := el
              first_ := { layout := none, opacity := 0 }
              last_ := { layout := none, opacity := 0 }
              invert_ := some { x := 0, y := 0, sx := 1, sy := 1, a := 0 }
              start_ := 0
              duration_ := config.duration
              delay_ := config.delay
              easing_ := easingFn
              updateTransform_ := config.transform
              updateOpacity_ := config.opacity
              hasPlay_ := player.hasPlayFn }

/-- The outcome of calling `play()`: either of the two guard errors, or
delegation to the `play_` of the bound player. -/
inductive PlayOutcome
  | sequencingError (msg : String)
  | noPlayerError
  | delegated
deriving DecidableEq, Repr

/-- The method `play()` from `src/core.js`: guards on `this.invert_ === null` and on a
missing bound `play_`, then delegates. -/
def FLIP.play (s : FlipState) : PlayOutcome :=
  match s.invert_ with
  | none => .sequencingError "invert() must be called before play()"
  | some _ => if s.hasPlay_ then .delegated else .noPlayerError

/-- The method `removeTransformsAndOpacity_()`: nulls the four written styles. -/
def FLIP.removeTransformsAndOpacity_ (s : FlipState) : FlipState :=
  { s with element_ := { s.element_ with style := clearedStyle } }

/-- The method `resetFirstLastAndInvertValues_()`: zeroes both snapshots and resets the
fields of the InvertDelta object to `{0, 0, 1, 1, 0}`. -/
def FLIP.resetFirstLastAndInvertValues_ (s : FlipState) : FlipState :=
  { s with first_ := { layout := none, opacity := 0 }
           last_ := { layout := none, opacity := 0 }
           invert_ := some { x := 0, y := 0, sx := 1, sy := 1, a := 0 } }

/-- The method `fire_(eventName)`: dispatches an event on the element. -/
def FLIP.fire_ (s : FlipState) (eventName : String) : FlipState :=
  { s with element_ :=
      { s.element_ with firedEvents := s.element_.firedEvents ++ [eventName] } }

/-- The method `cleanUpAndFireEvent_()`: clear styles, reset values, fire the event. -/
def FLIP.cleanUpAndFireEvent_ (s : FlipState) : FlipState :=
  FLIP.fire_ (FLIP.resetFirstLastAndInvertValues_ (FLIP.removeTransformsAndOpacity_ s))
    "flipComplete"

/-- The static method `FLIP.extend(name, player)`: stores the player under the name,
unconditionally overwriting any previous entry (the source only warns). -/
def FLIP.extend (players : String → Option Player) (name : String) (player : Player) :
    String → Option Player :=
  fun n => if n = name then some player else players n

/-- A sequence of `extend` registrations applied in order. -/
def FLIP.applyExtends (players : String → Option Player) :
    List (String × Player) → (String → Option Player)
  | [] => players
  | (n, p) :: rest => FLIP.applyExtends (FLIP.extend players n p) rest

/-- The rAF player object (it carries a `play_` function). -/
def demoPlayer : Player := { id := 0, hasPlayFn := true }

/-- A registry with only the default rAF player registered. -/
def demoRegistry : String → Option Player :=
  fun n => if n = "rAF" then some demoPlayer else none

/-- A minimal valid options object: only the element is supplied. -/
def demoOptions : FlipOptions := { element := some demoElement }

/-- The state the constructor produces for `demoRegistry` / `demoOptions`. -/
def demoState : FlipState :=
  { element_ := demoElement
    first_ := { layout := none, opacity := 0 }
    last_ := { layout := none, opacity := 0 }
    invert_ := some { x := 0, y := 0, sx := 1, sy := 1, a := 0 }
    start_ := 0
    duration_ := 330
    delay_ := 0
    easing_ := fun t => t
    updateTransform_ := true
    updateOpacity_ := true
    hasPlay_ := true }

/-- C2: on a freshly constructed instance, `play()` with no prior `invert()`
does NOT fail: `this.invert_` is initialised to an object by the
constructor and never set to null, so the guard is dead and `play()`
delegates to the bound strategy. -/
theorem play_before_invert_delegates :
    Except.map FLIP.play (FLIP.constructor demoRegistry demoOptions) =
      Except.ok PlayOutcome.delegated := by
  rfl

/-- Fields of any successfully constructed instance. -/
theorem constructor_ok_fields (registry : String → Option Player)
    (options : FlipOptions) (s0 : FlipState)
    (h : FLIP.constructor registry options = Except.ok s0) :
    s0.first_ = { layout := none, opacity := 0 } ∧
    s0.last_ = { layout := none, opacity := 0 } ∧
    s0.invert_ = some { x := 0, y := 0, sx := 1, sy := 1, a := 0 } := by
  unfold FLIP.constructor at h
  dsimp only at h
  cases he : (applyDefaults options).element with
  | none => rw [he] at h; exact absurd h (by simp)
  | some el =>
    rw [he] at h
    cases hez : resolveEasing (applyDefaults options).easing with
    | none => rw [hez] at h; exact absurd h (by simp)
    | some f =>
      rw [hez] at h
      cases hp : registry (applyDefaults options).play with
      | none => rw [hp] at h; exact absurd h (by simp)
      | some player =>
        rw [hp] at h
        cases h
        exact ⟨rfl, rfl, rfl⟩

/-- C4: the completion routine clears the four written styles, resets both
snapshots to layout null / opacity 0 and the InvertDelta to identity
(exactly the values the constructor sets, so the instance is back in its
post-construction snapshot/invert state), and fires a flipComplete event. -/
theorem cleanup_resets_state (s : FlipState) :
    (FLIP.cleanUpAndFireEvent_ s).element_.style = clearedStyle ∧
    (FLIP.cleanUpAndFireEvent_ s).first_ = { layout := none, opacity := 0 } ∧
    (FLIP.cleanUpAndFireEvent_ s).last_ = { layout := none, opacity := 0 } ∧
    (FLIP.cleanUpAndFireEvent_ s).invert_ = some { x := 0, y := 0, sx := 1, sy := 1, a := 0 } ∧
    (FLIP.cleanUpAndFireEvent_ s).element_.firedEvents =
      s.element_.firedEvents ++ ["flipComplete"] ∧
    (∀ registry options s0, FLIP.constructor registry options = Except.ok s0 →
      (FLIP.cleanUpAndFireEvent_ s).first_ = s0.first_ ∧
      (FLIP.cleanUpAndFireEvent_ s).last_ = s0.last_ ∧
      (FLIP.cleanUpAndFireEvent_ s).invert_ = s0.invert_) := by
  refine ⟨rfl, rfl, rfl, rfl, rfl, ?_⟩
  intro registry options s0 h
  obtain ⟨h1, h2, h3⟩ := constructor_ok_fields registry options s0 h
  exact ⟨by rw [h1]; rfl, by rw [h2]; rfl, by rw [h3]; rfl⟩

/-- Witness for C4: the cleanup of a dirty concrete state coincides with the
snapshot/invert state of a concretely constructed instance. -/
theorem cleanup_resets_state_witness :
    (FLIP.cleanUpAndFireEvent_ c1State).first_ = demoState.first_ ∧
    (FLIP.cleanUpAndFireEvent_ c1State).last_ = demoState.last_ ∧
    (FLIP.cleanUpAndFireEvent_ c1State).invert_ = demoState.invert_ :=
  (cleanup_resets_state c1State).2.2.2.2.2 demoRegistry demoOptions demoState rfl

/-- C7: the constructor rejects a missing element, an easing value that is
neither a function nor an object with a ratio-producing function, and an
unregistered player name, each with its specific error, yielding no
instance. -/
theorem constructor_config_errors (registry : String → Option Player)
    (options : FlipOptions) :
    (options.element = none →
      FLIP.constructor registry options = Except.error "Element must be provided.") ∧
    (∀ e, options.element ≠ none → options.easing = some e → resolveEasing e = none →
      FLIP.constructor registry options = Except.error "Easing function must be provided.") ∧
    (∀ f, options.element ≠ none →
      resolveEasing (applyDefaults options).easing = some f →
      registry ((applyDefaults options).play) = none →
      FLIP.constructor registry options =
        Except.error ("Unknown player type: " ++ (applyDefaults options).play)) := by
  have hel : (applyDefaults options).element = options.element := rfl
  refine ⟨?_, ?_, ?_⟩
  · intro h
    unfold FLIP.constructor
    dsimp only
    rw [hel, h]
  · intro e hne he hre
    unfold FLIP.constructor
    dsimp only
    rw [hel]
    cases hfind : options.element with
    | none => exact absurd hfind hne
    | some el =>
      have he2 : (applyDefaults options).easing = e := by
        show (options.easing.getD _) = e
        rw [he]
        rfl
      rw [he2, hre]
  · intro f hne hre hreg
    unfold FLIP.constructor
    dsimp only
    rw [hel]
    cases hfind : options.element with
    | none => exact absurd hfind hne
    | some el =>
      rw [hre, hreg]

/-- Witness for C7: all three configuration errors at concrete inputs,
including the unknown-strategy name bogus. -/
theorem constructor_config_errors_witness :
    FLIP.constructor demoRegistry { element := none } =
      Except.error "Element must be provided." ∧
    FLIP.constructor demoRegistry
        { element := some demoElement, easing := some EasingVal.objWithoutRatioFn } =
      Except.error "Easing function must be provided." ∧
    FLIP.constructor demoRegistry { element := some demoElement, play := some "bogus" } =
      Except.error ("Unknown player type: " ++ "bogus") :=
  ⟨(constructor_config_errors demoRegistry { element := none }).1 rfl,
   (constructor_config_errors demoRegistry
      { element := some demoElement, easing := some EasingVal.objWithoutRatioFn }).2.1
      EasingVal.objWithoutRatioFn (by simp) rfl rfl,
   (constructor_config_errors demoRegistry
      { element := some demoElement, play := some "bogus" }).2.2
      (fun t => t) (by simp) rfl (by decide)⟩

/-- C10: registering an existing name overwrites the stored player with the
new one, and no sequence of registrations ever removes an entry: a name
that resolves keeps resolving after any further `extend` calls. -/
theorem extend_last_wins_and_persistent (players : String → Option Player)
    (name : String) (p : Player) (ops : List (String × Player)) (m : String)
    (h : (players m).isSome = true) :
    FLIP.extend players name p name = some p ∧
    (FLIP.applyExtends players ops m).isSome = true := by
  constructor
  · unfold FLIP.extend
    simp
  · induction ops generalizing players with
    | nil => exact h
    | cons op rest ih =>
      cases op with
      | mk n q =>
        show (FLIP.applyExtends (FLIP.extend players n q) rest m).isSome = true
        apply ih
        unfold FLIP.extend
        by_cases hm : m = n
        · simp [hm]
        · simp [hm]
          exact h

/-- Witness for C10: overwrite at name rAF and persistence through further
registrations at a concrete registry. -/
theorem extend_last_wins_and_persistent_witness :
    FLIP.extend demoRegistry "rAF" { id := 7, hasPlayFn := true } "rAF" =
      some { id := 7, hasPlayFn := true } ∧
    (FLIP.applyExtends demoRegistry
      [("GSAP", { id := 1, hasPlayFn := true }), ("rAF", { id := 2, hasPlayFn := true })]
      "rAF").isSome = true :=
  extend_last_wins_and_persistent demoRegistry "rAF" { id := 7, hasPlayFn := true }
    [("GSAP", { id := 1, hasPlayFn := true }), ("rAF", { id := 2, hasPlayFn := true })]
    "rAF" (by decide)

/-- The host environment of the GSAP player: whether the globals `TweenMax`
and `TweenLite` are actually defined. -/
structure GsapEnv where
  tweenMaxDefined : Bool
  tweenLiteDefined : Bool
deriving DecidableEq, Repr

/-- The JS `typeof` of a string literal. The GSAP player tests
typeof applied to the quoted string literals TweenMax and TweenLite, so
the operand is a string and the result is always this value. -/
def typeofStringLiteral : String := "string"

/-- The flag tweenMaxAvailable as computed by the source: typeof of the
quoted literal TweenMax, compared against the string undefined. -/
def tweenMaxAvailable : Bool := typeofStringLiteral ≠ "undefined"

/-- The flag tweenLiteAvailable as computed by the source: typeof of the
quoted literal TweenLite, compared against the string undefined. -/
def tweenLiteAvailable : Bool := typeofStringLiteral ≠ "undefined"

/-- How the `play_` of the GSAP player terminates: running a tween with one of
the engines, crashing with a ReferenceError on an undefined global, or
throwing its explicit unavailability error. -/
inductive GsapOutcome
  | tweenedWithMax
  | tweenedWithLite
  | referenceError
  | explicitError
deriving DecidableEq, Repr

/-- The engine-selection logic in the `play_` of the GSAP player: if
`tweenMaxAvailable`, evaluate the global `TweenMax` (a ReferenceError when
it is not defined); else if `tweenLiteAvailable`, evaluate `TweenLite`;
else throw the explicit error. -/
def gsapPlay_ (env : GsapEnv) : GsapOutcome :=
  if tweenMaxAvailable then
    if env.tweenMaxDefined then .tweenedWithMax else .referenceError
  else if tweenLiteAvailable then
    if env.tweenLiteDefined then .tweenedWithLite else .referenceError
  else .explicitError

/-- C5: in an environment with neither TweenMax nor TweenLite, the GSAP
player does NOT throw its explicit unavailability error: the availability
flags test `typeof` of string literals and are always true, so it reaches
the global `TweenMax` and crashes with a ReferenceError instead. -/
theorem gsap_missing_engines_reference_error :
    gsapPlay_ { tweenMaxDefined := false, tweenLiteDefined := false } =
      GsapOutcome.referenceError ∧
    GsapOutcome.referenceError ≠ GsapOutcome.explicitError ∧
    tweenMaxAvailable = true ∧ tweenLiteAvailable = true := by
  refine ⟨?_, by decide, ?_, ?_⟩ <;> decide

/-- The method `clamp_(value, min, max)` from `src/core.js`, that is
`Math.min(max, Math.max(min, value))`. -/
def clamp_ (value lo hi : ℚ) : ℚ := min hi (max lo value)

/-- The per-frame update record computed by `update_` of the rAF player. -/
structure UpdateVals where
  x : ℚ
  y : ℚ
  sx : ℚ
  sy : ℚ
  a : ℚ
deriving DecidableEq, Repr

/-- The pure computation of one `update_` frame of the rAF player: the
normalized time, its clamp, the easing remap and the interpolated values. -/
def update_ (now start duration : ℚ) (easing : ℚ → ℚ) (inv : InvertDelta)
    (firstOpacity : ℚ) : UpdateVals :=
  let time := clamp_ ((now - start) / duration) 0 1
  let remappedTime := easing time
  { x := inv.x * (1 - remappedTime)
    y := inv.y * (1 - remappedTime)
    sx := inv.sx + (1 - inv.sx) * remappedTime
    sy := inv.sy + (1 - inv.sy) * remappedTime
    a := firstOpacity + inv.a * remappedTime }

/-- C8: every frame clamps the normalized time to [0,1] before easing, and
applies exactly the stated interpolation formulas; when the invert opacity
delta came from the snapshots, the applied opacity is the linear
interpolation from the first toward the last opacity in the eased time. -/
theorem update_interpolation (now start duration : ℚ) (easing : ℚ → ℚ)
    (inv : InvertDelta) (firstOpacity lastOpacity : ℚ)
    (ha : inv.a = lastOpacity - firstOpacity) :
    0 ≤ clamp_ ((now - start) / duration) 0 1 ∧
    clamp_ ((now - start) / duration) 0 1 ≤ 1 ∧
    update_ now start duration easing inv firstOpacity =
      { x := inv.x * (1 - easing (clamp_ ((now - start) / duration) 0 1))
        y := inv.y * (1 - easing (clamp_ ((now - start) / duration) 0 1))
        sx := inv.sx + (1 - inv.sx) * easing (clamp_ ((now - start) / duration) 0 1)
        sy := inv.sy + (1 - inv.sy) * easing (clamp_ ((now - start) / duration) 0 1)
        a := firstOpacity + inv.a * easing (clamp_ ((now - start) / duration) 0 1) } ∧
    firstOpacity + inv.a * easing (clamp_ ((now - start) / duration) 0 1) =
      (1 - easing (clamp_ ((now - start) / duration) 0 1)) * firstOpacity +
        easing (clamp_ ((now - start) / duration) 0 1) * lastOpacity := by
  refine ⟨?_, ?_, rfl, ?_⟩
  · exact le_min zero_le_one (le_max_left 0 _)
  · exact min_le_left 1 _
  · rw [ha]
    ring

/-- Witness for C8 at concrete numbers (halfway through the animation,
identity easing, opacity going from 1 to 6). -/
theorem update_interpolation_witness :
    update_ 10 0 20 (fun t : ℚ => t) { x := 1, y := 2, sx := 3, sy := 4, a := 5 } 1 =
      { x := 1 * (1 - clamp_ ((10 - 0) / 20) 0 1)
        y := 2 * (1 - clamp_ ((10 - 0) / 20) 0 1)
        sx := 3 + (1 - 3) * clamp_ ((10 - 0) / 20) 0 1
        sy := 4 + (1 - 4) * clamp_ ((10 - 0) / 20) 0 1
        a := 1 + 5 * clamp_ ((10 - 0) / 20) 0 1 } :=
  (update_interpolation 10 0 20 (fun t => t) { x := 1, y := 2, sx := 3, sy := 4, a := 5 }
    1 6 (by norm_num)).2.2.1

/-- A state accepted by `invert()` whose first snapshot has width 0 (as for
an unrendered element), so the computed scaleX is 0 / 5 = 0. -/
def c9State : FlipState :=
  { c1State with
    first_ := { layout := some { left := 0, top := 0, width := 0, height := 10 }, opacity := 0 }
    last_ := { layout := some { left := 0, top := 0, width := 5, height := 10 }, opacity := 0 } }

/-- C9 counterexample: invert() accepts a snapshot pair with first width 0
and computes scaleX = 0, which is not strictly positive. -/
theorem invert_scale_not_positive_counterexample :
    (FLIP.invert c9State).2 = none ∧
    ∃ inv, (FLIP.invert c9State).1.invert_ = some inv ∧ ¬ (0 < inv.sx) := by
  refine ⟨rfl, ⟨_, rfl, ?_⟩⟩
  norm_num

/-- C9 (amended): whenever the widths and heights of both accepted
snapshots are strictly positive, the computed scaleX and scaleY are
strictly positive. -/
theorem invert_scales_positive (s : FlipState) (fl ll : Layout)
    (h1 : s.first_.layout = some fl) (h2 : s.last_.layout = some ll)
    (hfw : 0 < fl.width) (hlw : 0 < ll.width)
    (hfh : 0 < fl.height) (hlh : 0 < ll.height) :
    ∃ inv, (FLIP.invert s).1.invert_ = some inv ∧ 0 < inv.sx ∧ 0 < inv.sy := by
  unfold FLIP.invert
  rw [h1, h2]
  exact ⟨_, rfl, div_pos hfw hlw, div_pos hfh hlh⟩

/-- Witness for the amended C9 at a concrete state with positive sizes. -/
theorem invert_scales_positive_witness :
    ∃ inv, (FLIP.invert c1State).1.invert_ = some inv ∧ 0 < inv.sx ∧ 0 < inv.sy :=
  invert_scales_positive c1State
    { left := 1, top := 2, width := 4, height := 6 }
    { left := 3, top := 5, width := 2, height := 3 } rfl rfl
    (by norm_num) (by norm_num) (by norm_num) (by norm_num)

/-- The argument of the group coordinator method `last()`: absent, a scalar class
name, or an array of class names. -/
inductive LastArg
  | undef
  | scalar (c : String)
  | array (cs : List String)
deriving DecidableEq, Repr

/-- The class that pass 1 of the group method `last()` gives member `index`:
the scalar for every member, the array entry at the member index (absent
entries, as for a short array, give `undefined`), or nothing. -/
def classFor (lastClassName : LastArg) (index : Nat) : Option String :=
  match lastClassName with
  | .undef => none
  | .scalar c => some c
  | .array cs => cs[index]?

/-- An observable step of the group coordinator method `last()`: adding a
class to the element of a member, or measuring a member (the `last()` of
that member, called with no class argument). -/
inductive GroupEvent
  | addClass (memberIndex : Nat) (className : String)
  | measure (memberIndex : Nat)
deriving DecidableEq, Repr

/-- Whether an event is a class addition. -/
def GroupEvent.isAddClassEvent : GroupEvent → Bool
  | .addClass _ _ => true
  | .measure _ => false

/-- Whether an event is a measurement. -/
def GroupEvent.isMeasureEvent : GroupEvent → Bool
  | .addClass _ _ => false
  | .measure _ => true

/-- Pass 1 of the group method `last()`: the class additions, in member order. -/
def groupAddPass (n : Nat) (arg : LastArg) : List GroupEvent :=
  (List.range n).filterMap fun i => (classFor arg i).map (GroupEvent.addClass i)

/-- Pass 2 of the group method `last()`: one measurement per member, in order. -/
def groupMeasurePass (n : Nat) : List GroupEvent :=
  (List.range n).map GroupEvent.measure

/-- The event trace of the group method `last()` over `n` members: the complete
first pass followed by the complete second pass. -/
def groupLastTrace (n : Nat) (arg : LastArg) : List GroupEvent :=
  groupAddPass n arg ++ groupMeasurePass n

/-- No event is both a class addition and a measurement. -/
theorem not_add_and_measure (e : GroupEvent) :
    e.isAddClassEvent = true → e.isMeasureEvent = true → False := by
  cases e <;> simp [GroupEvent.isAddClassEvent, GroupEvent.isMeasureEvent]

/-- Every event of the first pass is a class addition. -/
theorem mem_groupAddPass_isAdd (n : Nat) (arg : LastArg) :
    ∀ e ∈ groupAddPass n arg, e.isAddClassEvent = true := by
  intro e he
  simp only [groupAddPass, List.mem_filterMap] at he
  obtain ⟨i, _, hi⟩ := he
  cases hc : classFor arg i with
  | none => rw [hc] at hi; cases hi
  | some c =>
    rw [hc] at hi
    cases hi
    rfl

/-- Every event of the second pass is a measurement. -/
theorem mem_groupMeasurePass_isMeasure (n : Nat) :
    ∀ e ∈ groupMeasurePass n, e.isMeasureEvent = true := by
  intro e he
  simp only [groupMeasurePass, List.mem_map] at he
  obtain ⟨i, _, rfl⟩ := he
  rfl

/-- In a trace made of an addition phase followed by a measurement phase,
every addition precedes every measurement. -/
theorem two_phase_order (A B : List GroupEvent)
    (hA : ∀ e ∈ A, e.isAddClassEvent = true)
    (hB : ∀ e ∈ B, e.isMeasureEvent = true)
    (i j : Fin (A ++ B).length)
    (hi : ((A ++ B).get i).isAddClassEvent = true)
    (hj : ((A ++ B).get j).isMeasureEvent = true) :
    (i : Nat) < (j : Nat) := by
  have hiA : (i : Nat) < A.length := by
    by_contra hge
    push_neg at hge
    have hlt : (i : Nat) - A.length < B.length := by
      have hi2 : (i : Nat) < A.length + B.length := by simpa using i.isLt
      omega
    have hmem : (A ++ B).get i ∈ B := by
      rw [List.get_eq_getElem, List.getElem_append_right hge]
      exact List.getElem_mem hlt
    exact not_add_and_measure _ hi (hB _ hmem)
  have hjA : A.length ≤ (j : Nat) := by
    by_contra hlt
    push_neg at hlt
    have hmem : (A ++ B).get j ∈ A := by
      rw [List.get_eq_getElem, List.getElem_append_left hlt]
      exact List.getElem_mem hlt
    exact not_add_and_measure _ (hA _ hmem) hj
  omega

/-- C6: in the trace of the group method `last()` every class addition precedes every
measurement; the first pass adds to member `i` exactly the class
`classFor arg i` (the scalar for all members, the array entry positionally);
and every member is measured, with no class argument, in the second pass. -/
theorem group_last_two_pass (n : Nat) (arg : LastArg) :
    (∀ i j : Fin (groupLastTrace n arg).length,
      ((groupLastTrace n arg).get i).isAddClassEvent = true →
      ((groupLastTrace n arg).get j).isMeasureEvent = true →
      (i : Nat) < (j : Nat)) ∧
    (∀ i, i < n → ∀ c, classFor arg i = some c →
      GroupEvent.addClass i c ∈ groupLastTrace n arg) ∧
    (∀ i, i < n → GroupEvent.measure i ∈ groupLastTrace n arg) := by
  refine ⟨?_, ?_, ?_⟩
  · intro i j hi hj
    exact two_phase_order (groupAddPass n arg) (groupMeasurePass n)
      (mem_groupAddPass_isAdd n arg) (mem_groupMeasurePass_isMeasure n) i j hi hj
  · intro i hin c hc
    show GroupEvent.addClass i c ∈ groupAddPass n arg ++ groupMeasurePass n
    refine List.mem_append_left _ ?_
    simp only [groupAddPass, List.mem_filterMap]
    exact ⟨i, List.mem_range.mpr hin, by rw [hc]; rfl⟩
  · intro i hin
    show GroupEvent.measure i ∈ groupAddPass n arg ++ groupMeasurePass n
    refine List.mem_append_right _ ?_
    simp only [groupMeasurePass, List.mem_map]
    exact ⟨i, List.mem_range.mpr hin, rfl⟩

/-- Witness for C6: three members with classes a, b, c; member 1 receives
class b in pass 1, and the addition at position 0 precedes the measurement
at position 3 of the trace. -/
theorem group_last_two_pass_witness :
    GroupEvent.addClass 1 "b" ∈ groupLastTrace 3 (LastArg.array ["a", "b", "c"]) ∧
    (0 : Nat) < (3 : Nat) :=
  ⟨(group_last_two_pass 3 (LastArg.array ["a", "b", "c"])).2.1 1 (by decide) "b" (by decide),
   (group_last_two_pass 3 (LastArg.array ["a", "b", "c"])).1
     ⟨0, by decide⟩ ⟨3, by decide⟩ (by decide) (by decide)⟩
